import Mathlib

/-!
# Verification of the hybridnet pod IPAM core

Shallow embedding of the allocation-reconciliation engine
(`pkg/request/daemon.go`, reconciler part in package `networking`) and the
node binding handshake (`pkg/daemon/server/handle.go`) of the hybridnet
repository, together with theorems settling the frozen claims about them.

External collaborators (the Binding Store `IPAMStore`, the Allocation Engine
`IPAMManager`, the Kubernetes client) are modelled as environments that supply
the outcome of each call; the embedded control flow records every engine/store
operation it performs in a trace, in call order, mirroring the Go source.
-/

set_option autoImplicit false

namespace Hybridnet

/-! ## Annotation / label keys and constants

The `constants` package is not part of the shown sources; only the identity of
each key matters to the embedded control flow, so representative distinct
string values are used. -/

/-- Annotation key marking a pod as already having an assigned address
(`constants.AnnotationIP`). -/
def AnnotationIP : String := "networking.alibaba.com/ip-allocated"

/-- Annotation key for the per-pod retention override (`constants.AnnotationIPRetain`). -/
def AnnotationIPRetain : String := "networking.alibaba.com/ip-retain"

/-- Annotation key for the ordered pre-assigned IP pool (`constants.AnnotationIPPool`). -/
def AnnotationIPPool : String := "networking.alibaba.com/ip-pool"

/-- Annotation key for the IP family hint (`constants.AnnotationIPFamily`). -/
def AnnotationIPFamily : String := "networking.alibaba.com/ip-family"

/-- Annotation key for an explicitly specified network (`constants.AnnotationSpecifiedNetwork`). -/
def AnnotationSpecifiedNetwork : String := "networking.alibaba.com/specified-network"

/-- Label key for an explicitly specified network (`constants.LabelSpecifiedNetwork`). -/
def LabelSpecifiedNetwork : String := AnnotationSpecifiedNetwork

/-- Annotation key for the network type hint (`constants.AnnotationNetworkType`). -/
def AnnotationNetworkType : String := "networking.alibaba.com/network-type"

/-- Label key for the network type hint (`constants.LabelNetworkType`). -/
def LabelNetworkType : String := AnnotationNetworkType

/-- Annotation key for an explicitly specified subnet (`constants.AnnotationSpecifiedSubnet`). -/
def AnnotationSpecifiedSubnet : String := "networking.alibaba.com/specified-subnet"

/-- Label key for an explicitly specified subnet (`constants.LabelSpecifiedSubnet`). -/
def LabelSpecifiedSubnet : String := AnnotationSpecifiedSubnet

/-- Annotation key telling the daemon the admission webhook already finalized
the network config (`constants.AnnotationHandledByWebhook`). -/
def AnnotationHandledByWebhook : String := "networking.alibaba.com/handled-by-webhook"

/-- The allocation finalizer (`constants.FinalizerIPAllocated`). -/
def FinalizerIPAllocated : String := "networking.alibaba.com/ip-allocated-finalizer"

/-- Sentinel node name standing for the overlay fabric
(`OverlayNodeName`, daemon.go line 195). -/
def OverlayNodeName : String := "c3e6699d28e7"

/-- Sentinel node name standing for the global BGP fabric
(`GlobalBGPNodeName`, daemon.go line 196). -/
def GlobalBGPNodeName : String := "d7afdca2c149"

/-! ## Pod model -/

/-- The slice of a Kubernetes pod consumed by the reconciler.

`evicted`, `completed` and `ownByStatefulWorkload` stand for the helper
predicates `utils.PodIsEvicted`, `utils.PodIsCompleted` and
`strategy.OwnByStatefulWorkload`, whose sources are not shown; per the spec
they classify the pod's lifecycle phase and identity class, so they are carried
as abstract boolean attributes of the pod. -/
structure Pod where
  name : String
  ns : String
  uid : String
  nodeName : String
  hostNetwork : Bool := false
  /-- `none` models a zero deletion timestamp. -/
  deletionTimestamp : Option Nat := none
  annotations : List (String × String) := []
  labels : List (String × String) := []
  finalizers : List String := []
  evicted : Bool := false
  completed : Bool := false
  ownByStatefulWorkload : Bool := false
deriving Repr, DecidableEq

/-- Go map read: `pod.Annotations[key]` yields the empty string when absent. -/
def annGet (pod : Pod) (key : String) : String :=
  (pod.annotations.lookup key).getD ""

/-- Go map read on labels. -/
def labelGet (pod : Pod) (key : String) : String :=
  (pod.labels.lookup key).getD ""

/-- `metav1.HasAnnotation(pod.ObjectMeta, key)`. -/
def hasAnnotation (pod : Pod) (key : String) : Bool :=
  (pod.annotations.lookup key).isSome

/-! ## Small helpers from `globalutils` (not among the shown sources) -/

/-- Modelled from the spec: `globalutils.PickFirstNonEmptyString` returns the
first of its arguments that is non-empty (spec priority "annotation, else
label"). -/
def pickFirstNonEmptyString (a b : String) : String :=
  if a.length > 0 then a else b

/-- Modelled from the spec: `globalutils.ParseBoolOrDefault` parses the string
as a boolean and falls back to the given default when the string is absent or
unparseable ("the pod-level annotation, when present, always overrides the
cluster default; absence defers to the cluster default"). -/
def parseBoolOrDefault (s : String) (d : Bool) : Bool :=
  if s = "true" then true else if s = "false" then false else d

/-- Modelled from the spec: `globalutils.NormalizedIP` normalizes a textual IP
address; on the already-normalized inputs considered here it is the identity.
No claim depends on its internals. -/
def normalizedIP (s : String) : String := s

/-! ## Allocation record and operation trace -/

/-- An in-flight allocation record (`types.IP`): network, subnet and address. -/
structure IP where
  network : String
  subnet : String
  address : String
deriving Repr, DecidableEq

/-- Engine / store / pod-metadata operations performed by the reconciler, as
recorded in the trace of the embedded control flow. Single- and dual-stack
variants of a store or engine call are recorded as the same operation carrying
the full list of addresses it covers. -/
inductive Op where
  /-- `IPAMManager(.DualStack()).Allocate` -/
  | engineAllocate (networkName : String)
  /-- `IPAMManager(.DualStack()).Assign` -/
  | engineAssign (networkName : String) (candidates : List String)
  /-- `IPAMManager(.DualStack()).Release`, covering the listed addresses -/
  | engineRelease (ips : List IP)
  /-- `IPAMStore(.DualStack()).Couple`, covering the listed addresses -/
  | storeCouple (ips : List IP)
  /-- `IPAMStore(.DualStack()).ReCouple`, covering the listed addresses -/
  | storeReCouple (ips : List IP)
  /-- `IPAMStore(.DualStack()).DeCouple` -/
  | storeDeCouple
  /-- `IPAMStore(.DualStack()).IPReserve` -/
  | storeIPReserve
  /-- `IPAMStore(.DualStack()).IPRecycle` -/
  | storeIPRecycle (ns : String) (ip : IP)
  /-- patch adding `FinalizerIPAllocated` to the pod -/
  | podAddFinalizer
  /-- patch removing `FinalizerIPAllocated` from the pod -/
  | podRemoveFinalizer
deriving Repr, DecidableEq

/-- Is the operation an Allocation Engine operation? -/
def Op.isEngineOp : Op → Bool
  | Op.engineAllocate _ => true
  | Op.engineAssign _ _ => true
  | Op.engineRelease _ => true
  | _ => false

/-- Is the operation a Binding Store operation? -/
def Op.isStoreOp : Op → Bool
  | Op.storeCouple _ => true
  | Op.storeReCouple _ => true
  | Op.storeDeCouple => true
  | Op.storeIPReserve => true
  | Op.storeIPRecycle _ _ => true
  | _ => false

/-! ## Reconciler environment

The results of the calls the reconciler makes against its collaborators during
one event. Each field is the outcome the corresponding Go call would return
for this event; `Option String` fields are `some e` exactly when the call
fails with error text `e`. -/

structure ReconcileEnv where
  /-- `feature.DualStackEnabled()` -/
  dualStackEnabled : Bool := false
  /-- `strategy.DefaultIPRetain` -/
  defaultIPRetain : Bool := true
  /-- `IPAMStore(.DualStack()).DeCouple(pod)` -/
  decoupleResult : Option String := none
  /-- `IPAMStore(.DualStack()).IPReserve(pod)` -/
  reserveResult : Option String := none
  /-- `IPAMStore(.DualStack()).IPRecycle(namespace, ip)`, per address -/
  recycleResult : IP → Option String := fun _ => none
  /-- `IPAMManager.DualStack().Allocate(...)` -/
  allocateDualResult : Except String (List IP) := Except.ok []
  /-- `IPAMManager.Allocate(...)` -/
  allocateSingleResult : Except String IP := Except.ok ⟨"", "", ""⟩
  /-- `IPAMStore.DualStack().Couple(pod, ips)` -/
  coupleDualResult : Option String := none
  /-- `IPAMStore.Couple(pod, ip)` -/
  coupleSingleResult : Option String := none
  /-- `IPAMManager.Assign(...)` -/
  assignResult : Except String IP := Except.ok ⟨"", "", ""⟩
  /-- `IPAMManager.DualStack().Assign(...)` -/
  multiAssignResult : Except String (List IP) := Except.ok []
  /-- `IPAMStore.ReCouple(pod, ip)` -/
  reCoupleResult : Option String := none
  /-- `IPAMStore.DualStack().ReCouple(pod, ips)` -/
  multiReCoupleResult : Option String := none
  /-- outcome of the deferred compensating engine `Release`; the source
  discards it (`_ = ...Release(...)`), so no embedded control flow consults
  this field — it is carried to make that discarding checkable. -/
  compensatingReleaseResult : Option String := none
  /-- the conflict-retried patch adding the allocation finalizer -/
  addFinalizerPatchResult : Option String := none
  /-- the conflict-retried patch removing the allocation finalizer -/
  removeFinalizerPatchResult : Option String := none
  /-- `utils.ListAllocatedIPInstancesOfPod` followed by
  `transform.TransferIPInstancesForIPAM` (helpers not among the shown sources):
  the prior allocation records of this pod identity. -/
  listAllocatedIPInstancesOfPod : Except String (List IP) := Except.ok []
  /-- `utils.ListIPsOfPod`: the textual addresses previously bound to this pod
  identity (helper not among the shown sources). -/
  listIPsOfPod : Except String (List String) := Except.ok []
  /-- `utils.GetIPOfPod` (helper not among the shown sources); the empty string
  means no valid prior address. -/
  getIPOfPod : Except String String := Except.ok ""
  /-- Modelled from the spec: `utils.GetIndexFromName` extracts the ordinal
  index of an ordinal-workload pod from its name. -/
  getIndexFromName : String → Nat := fun _ => 0
  /-- `utils.ListNetworks(r, MatchingFields{IndexerFieldNode: nodeName})`:
  the names of the networks matching the node-name index key. -/
  listNetworksByNode : String → Except String (List String) := fun _ => Except.ok []

/-- `wrapError(msg, err)` from daemon.go: passes a nil error through and
prefixes a non-nil one. -/
def wrapErrorStr (msg : String) : Except String Unit → Except String Unit
  | Except.ok _ => Except.ok ()
  | Except.error e => Except.error (msg ++ ": " ++ e)

/-! ## Reconciler operations (daemon.go, package `networking`) -/

/-- `PodReconciler.decouple`: unbind all IP instances from the pod.
Whether the dual-stack or single-stack store variant is used, a single
`DeCouple` store call is made. -/
def decouple (env : ReconcileEnv) : List Op × Except String Unit :=
  match env.decoupleResult with
  | some e => ([Op.storeDeCouple], Except.error ("unable to decouple ips for pod: " ++ e))
  | none => ([Op.storeDeCouple], Except.ok ())

/-- `PodReconciler.reserve`: reserve all IP instances of the pod. -/
def reserve (env : ReconcileEnv) : List Op × Except String Unit :=
  match env.reserveResult with
  | some e => ([Op.storeIPReserve], Except.error ("unable to reserve ips for pod: " ++ e))
  | none => ([Op.storeIPReserve], Except.ok ())

/-- `PodReconciler.release`: recycle each allocated IP in order through the
store, stopping at the first failure. -/
def release (env : ReconcileEnv) (podNs : String) : List IP → List Op × Except String Unit
  | [] => ([], Except.ok ())
  | ip :: rest =>
    match env.recycleResult ip with
    | some e =>
      ([Op.storeIPRecycle podNs ip], Except.error ("unable to recycle ip: " ++ e))
    | none =>
      let r := release env podNs rest
      (Op.storeIPRecycle podNs ip :: r.1, r.2)

/-- `PodReconciler.allocate`: allocate fresh address(es) from the engine, then
couple them durably in the store. On a coupling failure after a successful
engine allocation, the deferred compensating `Release` fires, covering every
address returned by the engine; its own outcome is discarded (`_ =` in the
source), so it affects neither the trace shape nor the returned error. -/
def allocate (env : ReconcileEnv) (pod : Pod) (networkName : String) :
    List Op × Except String Unit :=
  if env.dualStackEnabled then
    match env.allocateDualResult with
    | Except.error e =>
      ([Op.engineAllocate networkName], Except.error ("unable to allocate ip: " ++ e))
    | Except.ok ips =>
      match env.coupleDualResult with
      | some e =>
        ([Op.engineAllocate networkName, Op.storeCouple ips, Op.engineRelease ips],
          Except.error ("unable to couple IPs with pod: " ++ e))
      | none =>
        ([Op.engineAllocate networkName, Op.storeCouple ips], Except.ok ())
  else
    match env.allocateSingleResult with
    | Except.error e =>
      ([Op.engineAllocate networkName], Except.error ("unable to allocate ip: " ++ e))
    | Except.ok ip =>
      match env.coupleSingleResult with
      | some e =>
        ([Op.engineAllocate networkName, Op.storeCouple [ip], Op.engineRelease [ip]],
          Except.error ("unable to couple ip with pod: " ++ e))
      | none =>
        ([Op.engineAllocate networkName, Op.storeCouple [ip]], Except.ok ())

/-- `PodReconciler.assign`: force-assign a known address through the engine and
re-couple it; a re-coupling failure triggers the deferred compensating engine
release (outcome discarded). -/
def assign (env : ReconcileEnv) (networkName : String) (ipCandidate : String) :
    List Op × Except String Unit :=
  match env.assignResult with
  | Except.error e => ([Op.engineAssign networkName [ipCandidate]], Except.error e)
  | Except.ok ip =>
    match env.reCoupleResult with
    | some e =>
      ([Op.engineAssign networkName [ipCandidate], Op.storeReCouple [ip],
        Op.engineRelease [ip]],
        Except.error ("unable to force-couple ip with pod: " ++ e))
    | none =>
      ([Op.engineAssign networkName [ipCandidate], Op.storeReCouple [ip]], Except.ok ())

/-- `PodReconciler.multiAssign`: dual-stack force-assign and re-couple, with
the same deferred compensating release pattern. -/
def multiAssign (env : ReconcileEnv) (networkName : String) (ipCandidates : List String) :
    List Op × Except String Unit :=
  match env.multiAssignResult with
  | Except.error e => ([Op.engineAssign networkName ipCandidates], Except.error e)
  | Except.ok ips =>
    match env.multiReCoupleResult with
    | some e =>
      ([Op.engineAssign networkName ipCandidates, Op.storeReCouple ips,
        Op.engineRelease ips],
        Except.error ("fail to force-couple ips with pod: " ++ e))
    | none =>
      ([Op.engineAssign networkName ipCandidates, Op.storeReCouple ips], Except.ok ())

/-- The retention decision of `PodReconciler.statefulAllocate` (daemon.go line
390): `shouldReallocate = !ParseBoolOrDefault(pod.Annotations[AnnotationIPRetain],
strategy.DefaultIPRetain)`. The first argument is the raw annotation value (the
empty string when the annotation is unset, as a Go map read yields). -/
def shouldReallocate (retainAnn : String) (defaultIPRetain : Bool) : Bool :=
  !(parseBoolOrDefault retainAnn defaultIPRetain)

/-- `PodReconciler.addFinalizer`: no-op when the finalizer is already present,
otherwise a conflict-retried patch. Returns the trace and the outcome. -/
def addFinalizer (env : ReconcileEnv) (pod : Pod) : List Op × Except String Unit :=
  if FinalizerIPAllocated ∈ pod.finalizers then ([], Except.ok ())
  else
    match env.addFinalizerPatchResult with
    | some e => ([Op.podAddFinalizer], Except.error e)
    | none => ([Op.podAddFinalizer], Except.ok ())

/-- `PodReconciler.removeFinalizer`: no-op when the finalizer is absent,
otherwise a conflict-retried patch. -/
def removeFinalizer (env : ReconcileEnv) (pod : Pod) : List Op × Except String Unit :=
  if FinalizerIPAllocated ∈ pod.finalizers then
    match env.removeFinalizerPatchResult with
    | some e => ([Op.podRemoveFinalizer], Except.error e)
    | none => ([Op.podRemoveFinalizer], Except.ok ())
  else ([], Except.ok ())

/-- `PodReconciler.statefulAllocate` (daemon.go lines 380-496): add the
allocation finalizer, then branch on pre-assignment pool / reallocation /
reuse, in the dual-stack or single-stack shape according to the feature gate.
Metrics observation is a non-operation side effect and is not modelled. -/
def statefulAllocate (env : ReconcileEnv) (pod : Pod) (networkName : String) :
    List Op × Except String Unit :=
  let fin := addFinalizer env pod
  match fin.2 with
  | Except.error e =>
    (fin.1, Except.error ("unable to add finalizer for stateful pod: " ++ e))
  | Except.ok _ =>
    let preAssign := (annGet pod AnnotationIPPool).length > 0
    let sr := shouldReallocate (annGet pod AnnotationIPRetain) env.defaultIPRetain
    if env.dualStackEnabled then
      if preAssign then
        let ipPool := (annGet pod AnnotationIPPool).splitOn ","
        let idx := env.getIndexFromName pod.name
        if idx < ipPool.length then
          let ipCandidates := ((ipPool.getD idx "").splitOn "/").map normalizedIP
          let m := multiAssign env networkName ipCandidates
          (fin.1 ++ m.1, wrapErrorStr "unable to multi-assign" m.2)
        else
          (fin.1, Except.error ("no available ip in ip-pool " ++ annGet pod AnnotationIPPool))
      else if sr then
        match env.listAllocatedIPInstancesOfPod with
        | Except.error e => (fin.1, Except.error e)
        | Except.ok allocatedIPs =>
          if allocatedIPs.length > 0 then
            let r := release env pod.ns allocatedIPs
            match r.2 with
            | Except.error e =>
              (fin.1 ++ r.1, Except.error ("unable to release before reallocate: " ++ e))
            | Except.ok _ =>
              let a := allocate env pod networkName
              (fin.1 ++ r.1 ++ a.1, wrapErrorStr "unable to reallocate" a.2)
          else
            let a := allocate env pod networkName
            (fin.1 ++ a.1, wrapErrorStr "unable to reallocate" a.2)
      else
        match env.listIPsOfPod with
        | Except.error e => (fin.1, Except.error e)
        | Except.ok ipCandidates =>
          if ipCandidates.length = 0 then
            let a := allocate env pod networkName
            (fin.1 ++ a.1, wrapErrorStr "unable to allocate" a.2)
          else
            let m := multiAssign env networkName ipCandidates
            (fin.1 ++ m.1, wrapErrorStr "unable to multi-assign" m.2)
    else
      if preAssign then
        let ipPool := (annGet pod AnnotationIPPool).splitOn ","
        let idx := env.getIndexFromName pod.name
        let ipCandidate :=
          if idx < ipPool.length then normalizedIP (ipPool.getD idx "") else ""
        if ipCandidate.length = 0 then
          (fin.1, Except.error ("no available ip in ip-pool " ++ annGet pod AnnotationIPPool))
        else
          let a := assign env networkName ipCandidate
          (fin.1 ++ a.1, wrapErrorStr "unable to assign" a.2)
      else if sr then
        match env.listAllocatedIPInstancesOfPod with
        | Except.error e => (fin.1, Except.error e)
        | Except.ok allocatedIPs =>
          if allocatedIPs.length > 0 then
            let r := release env pod.ns allocatedIPs
            match r.2 with
            | Except.error e =>
              (fin.1 ++ r.1, Except.error ("unable to release before reallocate: " ++ e))
            | Except.ok _ =>
              let a := allocate env pod networkName
              (fin.1 ++ r.1 ++ a.1, wrapErrorStr "unable to reallocate" a.2)
          else
            let a := allocate env pod networkName
            (fin.1 ++ a.1, wrapErrorStr "unable to reallocate" a.2)
      else
        match env.getIPOfPod with
        | Except.error e => (fin.1, Except.error e)
        | Except.ok ipCandidate =>
          if ipCandidate.length = 0 then
            let a := allocate env pod networkName
            (fin.1 ++ a.1, wrapErrorStr "unable to allocate" a.2)
          else
            let a := assign env networkName ipCandidate
            (fin.1 ++ a.1, wrapErrorStr "unable to assign" a.2)

/-! ## Network selection -/

/-- The declared network topology class (`types.NetworkType`). -/
inductive NetworkType where
  | underlay
  | overlay
  | globalBGP
  | unknown (s : String)
deriving Repr, DecidableEq

/-- Modelled from the spec: `types.ParseNetworkTypeFromString` maps the
declared type string to one of Underlay / Overlay / GlobalBGP and anything
else to an unknown type (spec 4.1: "Unknown/unparseable type: fail"). -/
def parseNetworkTypeFromString (s : String) : NetworkType :=
  if s = "Underlay" then NetworkType.underlay
  else if s = "Overlay" then NetworkType.overlay
  else if s = "GlobalBGP" then NetworkType.globalBGP
  else NetworkType.unknown s

/-- `PodReconciler.getNetworkByNodeNameIndexer`: list networks by the node-name
index and return the first one, or the empty string when none match. -/
def getNetworkByNodeNameIndexer (env : ReconcileEnv) (nodeName : String) :
    Except String String :=
  match env.listNetworksByNode nodeName with
  | Except.error e =>
    Except.error ("unable to list network by indexer node name " ++ nodeName ++ ": " ++ e)
  | Except.ok [] => Except.ok ""
  | Except.ok (n :: _) => Except.ok n

/-- The explicitly specified network of a pod: the annotation value, else the
label value (`PickFirstNonEmptyString(pod.Annotations[...], pod.Labels[...])`,
daemon.go line 313). -/
def specifiedNetworkOf (pod : Pod) : String :=
  pickFirstNonEmptyString (annGet pod AnnotationSpecifiedNetwork)
    (labelGet pod LabelSpecifiedNetwork)

/-- The declared network type of a pod: parsed from the annotation value, else
the label value (daemon.go line 317). -/
def networkTypeOf (pod : Pod) : NetworkType :=
  parseNetworkTypeFromString
    (pickFirstNonEmptyString (annGet pod AnnotationNetworkType)
      (labelGet pod LabelNetworkType))

/-- `PodReconciler.selectNetwork` (daemon.go lines 311-364): explicit network
reference first (annotation over label), otherwise branch on the declared
network type with the node-name indexer and the sentinel node identifiers. -/
def selectNetwork (env : ReconcileEnv) (pod : Pod) : Except String String :=
  if (specifiedNetworkOf pod).length > 0 then Except.ok (specifiedNetworkOf pod)
  else
    match networkTypeOf pod with
    | NetworkType.underlay =>
      match getNetworkByNodeNameIndexer env pod.nodeName with
      | Except.error e =>
        Except.error ("unable to get underlay network by node name indexer: " ++ e)
      | Except.ok n =>
        if n.length ≠ 0 then Except.ok n
        else Except.error ("unable to find underlay network for node " ++ pod.nodeName)
    | NetworkType.overlay =>
      match getNetworkByNodeNameIndexer env OverlayNodeName with
      | Except.error e =>
        Except.error ("unable to get overlay network by node name indexer: " ++ e)
      | Except.ok n =>
        if n.length ≠ 0 then Except.ok n
        else Except.error "unable to find overlay network"
    | NetworkType.globalBGP =>
      match getNetworkByNodeNameIndexer env GlobalBGPNodeName with
      | Except.error e =>
        Except.error ("unable to get overlay network by node name indexer: " ++ e)
      | Except.ok n =>
        if n.length ≠ 0 then Except.ok n
        else Except.error "unable to find global bgp network"
    | NetworkType.unknown s =>
      Except.error ("unknown network type " ++ s ++ " from pod")

/-- `PodReconciler.Reconcile` (daemon.go lines 216-272), after a successful pod
fetch: deletion path (stateful reserve + finalizer removal, or no-op), eviction
or completion decouple, the already-assigned annotation fence, then network
selection and the stateful or stateless allocation path. -/
def reconcile (env : ReconcileEnv) (pod : Pod) : List Op × Except String Unit :=
  if pod.deletionTimestamp.isSome then
    if pod.ownByStatefulWorkload then
      let rs := reserve env
      match rs.2 with
      | Except.error e => (rs.1, Except.error ("unable to reserve pod: " ++ e))
      | Except.ok _ =>
        let rf := removeFinalizer env pod
        (rs.1 ++ rf.1, wrapErrorStr "unable to remote finalizer" rf.2)
    else ([], Except.ok ())
  else if pod.evicted || pod.completed then
    let d := decouple env
    (d.1, wrapErrorStr "unable to decouple pod" d.2)
  else if hasAnnotation pod AnnotationIP then ([], Except.ok ())
  else
    match selectNetwork env pod with
    | Except.error e => ([], Except.error ("unable to select network: " ++ e))
    | Except.ok networkName =>
      if pod.ownByStatefulWorkload then
        let s := statefulAllocate env pod networkName
        (s.1, wrapErrorStr "unable to stateful allocate" s.2)
      else
        let a := allocate env pod networkName
        (a.1, wrapErrorStr "unable to allocate" a.2)

/-! ## IPInstance model (ipinstance_types.go) -/

/-- `networkingv1.IPVersion` is a string; the handshake recognizes the IPv4 and
IPv6 constants and treats anything else as unsupported. -/
inductive IPVersion where
  | v4
  | v6
  | other (s : String)
deriving Repr, DecidableEq

/-- `networkingv1.Address`: the spec-level address of an IPInstance. -/
structure Address where
  ip : String
  mac : String
  gateway : String
  version : IPVersion
  netID : Option Int := none
deriving Repr, DecidableEq

/-- `networkingv1.IPInstanceSpec`. -/
structure IPInstanceSpec where
  network : String
  subnet : String
  address : Address
deriving Repr, DecidableEq

/-- The slice of `networkingv1.IPInstance` the handshake consumes: its name,
its deletion timestamp (`none` models a zero timestamp) and its spec. -/
structure IPInstance where
  name : String
  deletionTimestamp : Option Nat := none
  spec : IPInstanceSpec
deriving Repr, DecidableEq

/-! ## Node binding handshake (handle.go) -/

/-- `defaultInterfaceName = "eth0"` (handle.go line 48). -/
def defaultInterfaceName : String := "eth0"

/-- The effective IP family mode of a pod (`ipamtypes.IPFamilyMode`), as
resolved before the handshake's count computation; unrecognized modes are kept
as their raw string. -/
inductive IPFamilyMode where
  | ipv4
  | ipv6
  | dualStack
  | unknown (s : String)
deriving Repr, DecidableEq

/-- The query issued by `listAvailableIPInstanceOfPodByInterfaceName` through
the manager client: the namespace plus the three label selectors
(node, pod UID, interface name). -/
structure ListQuery where
  ns : String
  node : String
  podUID : String
  interfaceName : String
deriving Repr, DecidableEq

/-- The environment of one client `List` call: a deterministic map from the
query to the returned items (or a client error). -/
structure ClientEnv where
  nodeName : String
  listIPInstances : ListQuery → Except String (List IPInstance)

/-- `cniDaemonHandler.listAvailableIPInstanceOfPodByInterfaceName` (handle.go
lines 469-498): list by namespace + three labels; when the result is empty and
the interface is the default one, issue the legacy-mode second list (with the
same namespace and the same three labels); finally keep only the instances
whose deletion timestamp is zero. -/
def listAvailableIPInstanceOfPodByInterfaceName (env : ClientEnv)
    (podUID podNamespace interfaceName : String) : Except String (List IPInstance) :=
  let q : ListQuery := ⟨podNamespace, env.nodeName, podUID, interfaceName⟩
  match env.listIPInstances q with
  | Except.error e => Except.error e
  | Except.ok items =>
    let second :=
      if items.length = 0 ∧ interfaceName = defaultInterfaceName then
        env.listIPInstances q
      else Except.ok items
    match second with
    | Except.error e => Except.error e
    | Except.ok items2 =>
      Except.ok (items2.filter (fun inst => inst.deletionTimestamp.isNone))

/-- The same function with the legacy-mode fallback branch removed, written
from the claim's words, for the refinement comparison of claim C10. -/
def listAvailableNoLegacyFallback (env : ClientEnv)
    (podUID podNamespace interfaceName : String) : Except String (List IPInstance) :=
  let q : ListQuery := ⟨podNamespace, env.nodeName, podUID, interfaceName⟩
  match env.listIPInstances q with
  | Except.error e => Except.error e
  | Except.ok items =>
    Except.ok (items.filter (fun inst => inst.deletionTimestamp.isNone))

/-- The expected address count by IP family mode: one for a single-stack mode,
two for dual-stack, none (failure) for an unrecognized mode. This is the
`switch ipFamily` of handle.go lines 133-143 and 379-387. -/
def expectIPNumber : IPFamilyMode → Option Nat
  | IPFamilyMode.ipv4 => some 1
  | IPFamilyMode.ipv6 => some 1
  | IPFamilyMode.dualStack => some 2
  | IPFamilyMode.unknown _ => none

/-- Outcome of the poll-until-converged loop. -/
inductive PollOutcome where
  /-- a list call failed -/
  | listError (e : String)
  /-- the IP family mode was unrecognized -/
  | invalidFamily
  /-- all attempts exhausted; reports the expected and the observed counts -/
  | countMismatch (expected observed : Nat)
  /-- the observed count matched the expected count -/
  | converged (insts : List IPInstance)
deriving Repr, DecidableEq

/-- One poll-loop run is summarized by its outcome, the number of list
attempts performed, and the sleep durations (in microseconds) taken before
each attempt. -/
structure PollRun where
  outcome : PollOutcome
  listCalls : Nat
  sleeps : List Nat
deriving Repr, DecidableEq

/-- The poll loop of `handleAdd` (handle.go lines 121-153), by remaining fuel.
Each iteration sleeps the current backoff, doubles it, lists the available
IPInstances (`lists i` stands for the result of the i-th invocation of
`listAvailableIPInstanceOfPodByInterfaceName`), then computes the expected
count from the family mode — failing on an unrecognized mode — and either
stops on a count match, errors on the last attempt, or retries. Called with
fuel `retries = 11`, attempt index 0 and backoff base 5. -/
def handleAddLoopFuel (lists : Nat → Except String (List IPInstance))
    (fam : IPFamilyMode) : Nat → Nat → Nat → PollRun
  | 0, i, _ => ⟨PollOutcome.countMismatch 0 0, i, []⟩
  | fuel + 1, i, backOff =>
    match lists i with
    | Except.error e => ⟨PollOutcome.listError e, i + 1, [backOff]⟩
    | Except.ok l =>
      match expectIPNumber fam with
      | none => ⟨PollOutcome.invalidFamily, i + 1, [backOff]⟩
      | some expect =>
        if l.length = expect then ⟨PollOutcome.converged l, i + 1, [backOff]⟩
        else if fuel = 0 then ⟨PollOutcome.countMismatch expect l.length, i + 1, [backOff]⟩
        else
          let r := handleAddLoopFuel lists fam fuel (i + 1) (backOff * 2)
          ⟨r.outcome, r.listCalls, backOff :: r.sleeps⟩

/-- The number of list attempts of the poll loops: `retries = 11`. -/
def pollRetries : Nat := 11

/-- The initial backoff of the poll loops: `5 * time.Microsecond`. -/
def pollBackOffBase : Nat := 5

/-- The `handleAdd` poll loop at its entry point. -/
def handleAddPoll (lists : Nat → Except String (List IPInstance))
    (fam : IPFamilyMode) : PollRun :=
  handleAddLoopFuel lists fam pollRetries 0 pollBackOffBase

/-- The poll loop of `handleIPAMAdd` (handle.go lines 397-414), by remaining
fuel: identical to the `handleAdd` loop except that the expected count is
computed once before the loop, so the loop carries it directly. -/
def ipamLoopFuel (lists : Nat → Except String (List IPInstance))
    (expect : Nat) : Nat → Nat → Nat → PollRun
  | 0, i, _ => ⟨PollOutcome.countMismatch 0 0, i, []⟩
  | fuel + 1, i, backOff =>
    match lists i with
    | Except.error e => ⟨PollOutcome.listError e, i + 1, [backOff]⟩
    | Except.ok l =>
      if l.length = expect then ⟨PollOutcome.converged l, i + 1, [backOff]⟩
      else if fuel = 0 then ⟨PollOutcome.countMismatch expect l.length, i + 1, [backOff]⟩
      else
        let r := ipamLoopFuel lists expect fuel (i + 1) (backOff * 2)
        ⟨r.outcome, r.listCalls, backOff :: r.sleeps⟩

/-- The `handleIPAMAdd` handshake up to and including its poll loop: the
expected count is resolved from the family mode before any polling; an
unrecognized mode fails with zero list attempts. -/
def handleIPAMAddPoll (lists : Nat → Except String (List IPInstance))
    (fam : IPFamilyMode) : PollRun :=
  match expectIPNumber fam with
  | none => ⟨PollOutcome.invalidFamily, 0, []⟩
  | some expect => ipamLoopFuel lists expect pollRetries 0 pollBackOffBase

/-! ## Per-instance validation and response assembly of `handleAdd` -/

/-- One entry of the add response (`request.IPAddress`). -/
structure RespAddress where
  ip : String
  mac : String
  gateway : String
  protocol : IPVersion
deriving Repr, DecidableEq

/-- The accumulator state of the instance-processing loop of `handleAdd`
(handle.go lines 176-251): the common MAC address (`""` before the first
instance), whether an IPv4 / IPv6 address has been taken (the non-nil entries
of the `allocatedIPs` map), the common network name (`""` before the first
instance), the response addresses and the affected instance names, both in
input order. -/
structure ProcState where
  macAddr : String := ""
  hasV4 : Bool := false
  hasV6 : Bool := false
  networkName : String := ""
  returnIPAddress : List RespAddress := []
  affected : List String := []
deriving Repr, DecidableEq

/-- Environment of the post-loop part of `handleAdd`. -/
structure HandleEnv where
  /-- does `net.ParseCIDR` succeed on this spec address string? -/
  parseCIDROK : String → Bool := fun _ => true
  /-- `config.PatchCalicoPodIPsAnnotation` -/
  patchCalicoPodIPsAnnotation : Bool := false
  /-- outcome of the calico-compatible annotation patch -/
  calicoPatchResult : Option String := none
  /-- outcome of fetching the network named by the instances -/
  getNetworkResult : Option String := none
  /-- outcome of `configureNic`; `ok` carries the host interface name -/
  configureNicResult : Except String String := Except.ok "hybr0"
  /-- outcome of the conflict-retried status patch, per instance name -/
  statusPatchResult : String → Option String := fun _ => none

/-- The instance-processing loop of `handleAdd`: for each instance, check the
MAC against the running common MAC, parse the spec address, branch on the IP
version enforcing at most one address per version, check the network against
the running common network, then append the response address and record the
instance as affected. Any mismatch is a hard error. -/
def processInstances (env : HandleEnv) :
    List IPInstance → ProcState → Except String ProcState
  | [], st => Except.ok st
  | inst :: rest, st =>
    let a := inst.spec.address
    if st.macAddr ≠ "" ∧ st.macAddr ≠ a.mac then
      Except.error "mac for all ip instances of pod should be the same"
    else
      let macAddr := if st.macAddr = "" then a.mac else st.macAddr
      if ¬ env.parseCIDROK a.ip then
        Except.error ("failed to parse ip address " ++ a.ip ++ " to cidr")
      else
        match a.version with
        | IPVersion.v4 =>
          if st.hasV4 then
            Except.error "only one ipv4 address for each pod are supported"
          else if st.networkName ≠ "" ∧ st.networkName ≠ inst.spec.network then
            Except.error "found different networks for pod"
          else
            processInstances env rest
              { st with
                macAddr := macAddr
                hasV4 := true
                networkName := if st.networkName = "" then inst.spec.network else st.networkName
                returnIPAddress :=
                  st.returnIPAddress ++ [⟨a.ip, a.mac, a.gateway, IPVersion.v4⟩]
                affected := st.affected ++ [inst.name] }
        | IPVersion.v6 =>
          if st.hasV6 then
            Except.error "only one ipv6 address for each pod are supported"
          else if st.networkName ≠ "" ∧ st.networkName ≠ inst.spec.network then
            Except.error "found different networks for pod"
          else
            processInstances env rest
              { st with
                macAddr := macAddr
                hasV6 := true
                networkName := if st.networkName = "" then inst.spec.network else st.networkName
                returnIPAddress :=
                  st.returnIPAddress ++ [⟨a.ip, a.mac, a.gateway, IPVersion.v6⟩]
                affected := st.affected ++ [inst.name] }
        | IPVersion.other _ =>
          Except.error "unsupported ip version for pod"

/-- Externally visible effects of an add handler run, in order. -/
inductive HEffect where
  /-- the calico-compatible annotation patch was issued -/
  | calicoPatch
  /-- an error response with this HTTP status was written -/
  | respondError (status : Nat)
  /-- `configureNic` was invoked -/
  | configureNic
  /-- the status of the named IPInstance was patched -/
  | statusPatch (instName : String)
  /-- the success response carrying these addresses was written -/
  | respondOK (addrs : List RespAddress)
deriving Repr, DecidableEq

/-- The status write-back loop shared by both add handlers: patch the status of
every affected instance in order, stopping with a 500 error response on the
first failure, and finally write the success response. -/
def statusWriteBack (env : HandleEnv) (addrs : List RespAddress) :
    List String → List HEffect
  | [] => [HEffect.respondOK addrs]
  | n :: rest =>
    match env.statusPatchResult n with
    | some _ => [HEffect.statusPatch n, HEffect.respondError 500]
    | none => HEffect.statusPatch n :: statusWriteBack env addrs rest

/-- `cniDaemonHandler.handleAdd` (handle.go lines 76-309) after a successful
request parse and pod fetch: poll loop, optional calico-compatible annotation
patch (on whose failure `errorWrapper` writes a 400 error response but the
handler does NOT return), per-instance validation, the second MAC emptiness
check (`len(allocatedIPs)` is always 2 since the map carries both version keys,
so only `macAddr == ""` can fire), network fetch, `configureNic`, status
write-back, success response. The returned list is the trace of effects. -/
def handleAdd (env : HandleEnv) (lists : Nat → Except String (List IPInstance))
    (fam : IPFamilyMode) : List HEffect :=
  match (handleAddPoll lists fam).outcome with
  | PollOutcome.listError _ => [HEffect.respondError 400]
  | PollOutcome.invalidFamily => [HEffect.respondError 400]
  | PollOutcome.countMismatch _ _ => [HEffect.respondError 400]
  | PollOutcome.converged ipInstanceList =>
    let calicoEffects : List HEffect :=
      if env.patchCalicoPodIPsAnnotation then
        match env.calicoPatchResult with
        | some _ => [HEffect.calicoPatch, HEffect.respondError 400]
        | none => [HEffect.calicoPatch]
      else []
    calicoEffects ++
      match processInstances env ipInstanceList {} with
      | Except.error _ => [HEffect.respondError 500]
      | Except.ok st =>
        if st.macAddr = "" then [HEffect.respondError 500]
        else
          match env.getNetworkResult with
          | some _ => [HEffect.respondError 500]
          | none =>
            match env.configureNicResult with
            | Except.error _ => [HEffect.configureNic, HEffect.respondError 500]
            | Except.ok _ =>
              HEffect.configureNic :: statusWriteBack env st.returnIPAddress st.affected

/-- `cniDaemonHandler.handleIPAMAdd` (handle.go lines 343-456) after a
successful request parse and pod fetch: expected-count resolution, poll loop,
then — with no MAC / version / network validation — direct response assembly
from the observed instances, status write-back and success response. -/
def handleIPAMAdd (env : HandleEnv) (lists : Nat → Except String (List IPInstance))
    (fam : IPFamilyMode) : List HEffect :=
  match (handleIPAMAddPoll lists fam).outcome with
  | PollOutcome.listError _ => [HEffect.respondError 400]
  | PollOutcome.invalidFamily => [HEffect.respondError 400]
  | PollOutcome.countMismatch _ _ => [HEffect.respondError 400]
  | PollOutcome.converged ipInstanceList =>
    let returnIPAddress : List RespAddress :=
      ipInstanceList.map (fun inst =>
        ⟨inst.spec.address.ip, inst.spec.address.mac, inst.spec.address.gateway,
          inst.spec.address.version⟩)
    let affected : List String := ipInstanceList.map (fun inst => inst.name)
    statusWriteBack env returnIPAddress affected

/-! ## Sample inputs used by witnesses and counterexamples -/

/-- An environment with every collaborator call succeeding at its default. -/
def envDefault : ReconcileEnv := {}

/-- A sample IPv4 allocation record. -/
def ipSampleV4 : IP := ⟨"net1", "subnet4", "10.0.0.5"⟩

/-- A sample IPv6 allocation record. -/
def ipSampleV6 : IP := ⟨"net1", "subnet6", "fd00::5"⟩

/-- A plain stateless pod with no intent annotations. -/
def podPlain : Pod :=
  { name := "p1", ns := "ns1", uid := "uid-p1", nodeName := "node1" }

/-- A pod already carrying the assigned-address annotation. -/
def podAssigned : Pod :=
  { podPlain with annotations := [(AnnotationIP, "10.0.0.9")] }

/-- A stateful pod being deleted, carrying the allocation finalizer. -/
def podStatefulDeleting : Pod :=
  { name := "p1-0", ns := "ns1", uid := "uid-p10", nodeName := "node1",
    deletionTimestamp := some 100, ownByStatefulWorkload := true,
    finalizers := [FinalizerIPAllocated] }

/-- A stateless pod being deleted. -/
def podStatelessDeleting : Pod :=
  { podPlain with deletionTimestamp := some 100 }

/-- A stateless pod that has been evicted. -/
def podEvicted : Pod :=
  { podPlain with evicted := true }

/-- A stateful pod with no retention annotation, finalizer already present. -/
def podStateful : Pod :=
  { name := "p1-0", ns := "ns1", uid := "uid-p10", nodeName := "node1",
    ownByStatefulWorkload := true, finalizers := [FinalizerIPAllocated] }

/-- The same stateful pod explicitly opting out of retention. -/
def podStatefulNoRetain : Pod :=
  { podStateful with annotations := [(AnnotationIPRetain, "false")] }

/-- Dual-stack environment whose engine allocation succeeds with two addresses
and whose store coupling fails; the compensating release also fails, which the
source discards. -/
def envDualCoupleFail : ReconcileEnv :=
  { dualStackEnabled := true,
    allocateDualResult := Except.ok [ipSampleV4, ipSampleV6],
    coupleDualResult := some "store unavailable",
    compensatingReleaseResult := some "release failed too" }

/-- Single-stack environment whose engine allocation succeeds and whose store
coupling fails; the compensating release also fails. -/
def envSingleCoupleFail : ReconcileEnv :=
  { dualStackEnabled := false,
    allocateSingleResult := Except.ok ipSampleV4,
    coupleSingleResult := some "store unavailable",
    compensatingReleaseResult := some "release failed too" }

/-- Environment for a stateful reuse: a prior address exists and the engine
force-assign returns it. -/
def envStatefulReuse : ReconcileEnv :=
  { dualStackEnabled := false, defaultIPRetain := true,
    getIPOfPod := Except.ok "10.0.0.5",
    assignResult := Except.ok ipSampleV4 }

/-- Environment for a stateful reallocation: a prior allocation record exists,
recycling succeeds, and a fresh address is then allocated. -/
def envStatefulRealloc : ReconcileEnv :=
  { dualStackEnabled := false, defaultIPRetain := true,
    listAllocatedIPInstancesOfPod := Except.ok [ipSampleV4],
    allocateSingleResult := Except.ok ⟨"net1", "subnet4", "10.0.0.77"⟩ }

/-- A pod explicitly specifying its network by annotation (with a conflicting
label, to exercise the annotation-over-label precedence). -/
def podNetAnn : Pod :=
  { podPlain with
    annotations := [(AnnotationSpecifiedNetwork, "mynet")],
    labels := [(LabelSpecifiedNetwork, "othernet")] }

/-- A pod declaring the Underlay network type. -/
def podUnderlay : Pod :=
  { podPlain with annotations := [(AnnotationNetworkType, "Underlay")] }

/-- A pod declaring the Overlay network type. -/
def podOverlay : Pod :=
  { podPlain with annotations := [(AnnotationNetworkType, "Overlay")] }

/-- A pod declaring the GlobalBGP network type. -/
def podGlobalBGP : Pod :=
  { podPlain with annotations := [(AnnotationNetworkType, "GlobalBGP")] }

/-- A pod declaring an unparseable network type. -/
def podUnknownType : Pod :=
  { podPlain with annotations := [(AnnotationNetworkType, "Foo")] }

/-- Node-name index binding node1 to an underlay network and the overlay
sentinel to an overlay network; the BGP sentinel resolves to nothing. -/
def envNetworks : ReconcileEnv :=
  { listNetworksByNode := fun n =>
      if n = "node1" then Except.ok ["underlay-1"]
      else if n = OverlayNodeName then Except.ok ["overlay-1"]
      else Except.ok [] }

/-- A handler environment with every collaborator call succeeding. -/
def envHandleDefault : HandleEnv := {}

/-- A well-formed IPv4 IPInstance used by the handshake witnesses. -/
def instSampleV4 : IPInstance :=
  { name := "inst-c4",
    spec := { network := "net1", subnet := "subnet4",
              address := { ip := "10.0.0.4/24", mac := "aa:aa:aa:aa:aa:04",
                           gateway := "10.0.0.254", version := IPVersion.v4 } } }

/-- Successive list results that converge at the fourth attempt. -/
def c4Lists : Nat → Except String (List IPInstance) :=
  fun i => if i < 3 then Except.ok [] else Except.ok [instSampleV4]

/-- The observed items behind `c4Lists`. -/
def c4Obs : Nat → List IPInstance :=
  fun i => if i < 3 then [] else [instSampleV4]

/-- Two IPInstances of one pod disagreeing on MAC, network and (by holding two
IPv4 addresses) the one-address-per-version rule. -/
def c6InstA : IPInstance :=
  { name := "inst-a",
    spec := { network := "net1", subnet := "s1",
              address := { ip := "10.0.0.1/24", mac := "aa:aa:aa:aa:aa:01",
                           gateway := "10.0.0.254", version := IPVersion.v4 } } }

/-- See `c6InstA`. -/
def c6InstB : IPInstance :=
  { name := "inst-b",
    spec := { network := "net2", subnet := "s2",
              address := { ip := "10.0.0.2/24", mac := "bb:bb:bb:bb:bb:02",
                           gateway := "10.0.0.254", version := IPVersion.v4 } } }

/-- Lists returning the two inconsistent instances at once. -/
def c6Lists : Nat → Except String (List IPInstance) :=
  fun _ => Except.ok [c6InstA, c6InstB]

/-- Environment in which the calico-compatible annotation patching is enabled
and the patch fails. -/
def c8Env : HandleEnv :=
  { patchCalicoPodIPsAnnotation := true, calicoPatchResult := some "patch conflict" }

/-- A single-instance list converging immediately. -/
def c8Lists : Nat → Except String (List IPInstance) :=
  fun _ => Except.ok [instSampleV4]

/-- A live IPInstance (zero deletion timestamp). -/
def c9Live : IPInstance :=
  { name := "inst-live",
    spec := { network := "net1", subnet := "s1",
              address := { ip := "10.0.0.9/24", mac := "aa:aa:aa:aa:aa:09",
                           gateway := "10.0.0.254", version := IPVersion.v4 } } }

/-- An IPInstance that is being deleted (non-zero deletion timestamp). -/
def c9Deleted : IPInstance :=
  { name := "inst-dead", deletionTimestamp := some 42,
    spec := { network := "net1", subnet := "s1",
              address := { ip := "10.0.0.10/24", mac := "aa:aa:aa:aa:aa:10",
                           gateway := "10.0.0.254", version := IPVersion.v6 } } }

/-- A client whose store holds one live and one deleted instance for the pod. -/
def c9ClientEnv : ClientEnv :=
  { nodeName := "node1",
    listIPInstances := fun q =>
      if q.podUID = "uid-9" then Except.ok [c9Live, c9Deleted] else Except.ok [] }

/-! ## Claim theorems: reconciler -/

/-- Claim C1: for a pod owned by a stateful workload, the reallocation decision
of `statefulAllocate` follows the retention truth table exactly: the per-pod
retention annotation, when present and parseable, overrides the cluster-wide
default (`"true"` always retains, `"false"` always reallocates), and its
absence defers to the cluster default; the six combinations of cluster default
and pod annotation match the stated table. The final two conjuncts evaluate
`statefulAllocate` itself on a retain and a reallocate configuration, showing
the decision drive the reuse (force-assign) and reallocate (recycle then fresh
allocate) paths. -/
theorem c1_retention_truth_table :
    (∀ d : Bool, shouldReallocate "true" d = false) ∧
    (∀ d : Bool, shouldReallocate "false" d = true) ∧
    (∀ d : Bool, shouldReallocate "" d = !d) ∧
    (shouldReallocate "" true = false ∧ shouldReallocate "true" true = false ∧
      shouldReallocate "false" true = true ∧ shouldReallocate "" false = true ∧
      shouldReallocate "false" false = true ∧ shouldReallocate "true" false = false) ∧
    statefulAllocate envStatefulReuse podStateful "net1" =
      ([Op.engineAssign "net1" ["10.0.0.5"], Op.storeReCouple [ipSampleV4]],
        Except.ok ()) ∧
    statefulAllocate envStatefulRealloc podStatefulNoRetain "net1" =
      ([Op.storeIPRecycle "ns1" ipSampleV4, Op.engineAllocate "net1",
        Op.storeCouple [⟨"net1", "subnet4", "10.0.0.77"⟩]], Except.ok ()) := by
  refine ⟨fun d => by cases d <;> rfl, fun d => by cases d <;> rfl,
    fun d => by cases d <;> rfl, by decide, by rfl, by rfl⟩

/-- Claim C2: in the dual-stack allocate path, when the engine `Allocate`
succeeds and the store `Couple` fails, a compensating `Release` covering every
allocated address (all IP families) is issued before the error is returned,
and the returned error is the coupling error — the compensating release's own
outcome (`env.compensatingReleaseResult`, universally quantified here) is
discarded and never replaces it. The same holds for the single-stack path with
its single address. -/
theorem c2_allocate_compensates_on_couple_failure :
    ∀ (env : ReconcileEnv) (pod : Pod) (networkName : String),
      (∀ ips e, env.dualStackEnabled = true →
        env.allocateDualResult = Except.ok ips →
        env.coupleDualResult = some e →
        allocate env pod networkName =
          ([Op.engineAllocate networkName, Op.storeCouple ips, Op.engineRelease ips],
            Except.error ("unable to couple IPs with pod: " ++ e))) ∧
      (∀ ip e, env.dualStackEnabled = false →
        env.allocateSingleResult = Except.ok ip →
        env.coupleSingleResult = some e →
        allocate env pod networkName =
          ([Op.engineAllocate networkName, Op.storeCouple [ip], Op.engineRelease [ip]],
            Except.error ("unable to couple ip with pod: " ++ e))) := by
  intro env pod networkName
  constructor
  · intro ips e hd ha hc
    simp [allocate, hd, ha, hc]
  · intro ip e hd ha hc
    simp [allocate, hd, ha, hc]

/-- Witness for C2: both allocate paths evaluated at concrete environments in
which coupling fails (and the discarded compensating release fails as well). -/
theorem c2_allocate_compensates_witness :
    allocate envDualCoupleFail podPlain "net1" =
      ([Op.engineAllocate "net1", Op.storeCouple [ipSampleV4, ipSampleV6],
        Op.engineRelease [ipSampleV4, ipSampleV6]],
        Except.error "unable to couple IPs with pod: store unavailable") ∧
    allocate envSingleCoupleFail podPlain "net1" =
      ([Op.engineAllocate "net1", Op.storeCouple [ipSampleV4],
        Op.engineRelease [ipSampleV4]],
        Except.error "unable to couple ip with pod: store unavailable") :=
  ⟨(c2_allocate_compensates_on_couple_failure envDualCoupleFail podPlain "net1").1
      [ipSampleV4, ipSampleV6] "store unavailable" rfl rfl rfl,
    (c2_allocate_compensates_on_couple_failure envSingleCoupleFail podPlain "net1").2
      ipSampleV4 "store unavailable" rfl rfl rfl⟩

/-- Claim C3: for a pod that is not being deleted, not evicted and not
completed, the presence of the assigned-address annotation makes `Reconcile`
return success immediately with an empty operation trace — no Allocation
Engine call and no Binding Store call of any kind. -/
theorem c3_assigned_annotation_fence :
    ∀ (env : ReconcileEnv) (pod : Pod),
      pod.deletionTimestamp = none →
      pod.evicted = false →
      pod.completed = false →
      hasAnnotation pod AnnotationIP = true →
      reconcile env pod = ([], Except.ok ()) := by
  intro env pod hdel hev hco hann
  simp [reconcile, hdel, hev, hco, hann]

/-- Witness for C3: re-delivery of a creation event for an already-annotated
pod, in an environment that would fail loudly were any call made. -/
theorem c3_fence_witness :
    reconcile envDualCoupleFail podAssigned = ([], Except.ok ()) :=
  c3_assigned_annotation_fence envDualCoupleFail podAssigned rfl rfl rfl (by decide)

/-- Claim C7: a deleting pod owned by a stateful workload triggers exactly a
store reserve followed (on success, when the allocation finalizer is present)
by the finalizer removal — no decouple, no engine release, no recycle; a
deleting pod not owned by a stateful workload is a no-op; a non-deleting pod
that is evicted or completed triggers exactly a store decouple and no
allocation. -/
theorem c7_deletion_and_eviction_paths :
    ∀ (env : ReconcileEnv) (pod : Pod),
      (pod.deletionTimestamp.isSome = true → pod.ownByStatefulWorkload = true →
        (reconcile env pod).1 =
          Op.storeIPReserve ::
            (if env.reserveResult = none ∧ FinalizerIPAllocated ∈ pod.finalizers
              then [Op.podRemoveFinalizer] else []) ∧
        Op.storeDeCouple ∉ (reconcile env pod).1 ∧
        (∀ ips, Op.engineRelease ips ∉ (reconcile env pod).1) ∧
        (∀ ns ip, Op.storeIPRecycle ns ip ∉ (reconcile env pod).1)) ∧
      (pod.deletionTimestamp.isSome = true → pod.ownByStatefulWorkload = false →
        reconcile env pod = ([], Except.ok ())) ∧
      (pod.deletionTimestamp = none → (pod.evicted = true ∨ pod.completed = true) →
        (reconcile env pod).1 = [Op.storeDeCouple] ∧
        (∀ n, Op.engineAllocate n ∉ (reconcile env pod).1) ∧
        (∀ n cs, Op.engineAssign n cs ∉ (reconcile env pod).1)) := by
  intro env pod
  refine ⟨?_, ?_, ?_⟩
  · intro hdel hst
    have htr : (reconcile env pod).1 =
        Op.storeIPReserve ::
          (if env.reserveResult = none ∧ FinalizerIPAllocated ∈ pod.finalizers
            then [Op.podRemoveFinalizer] else []) := by
      cases hr : env.reserveResult with
      | some e => simp [reconcile, reserve, hdel, hst, hr]
      | none =>
        by_cases hc : FinalizerIPAllocated ∈ pod.finalizers
        · cases hp : env.removeFinalizerPatchResult with
          | some e => simp [reconcile, reserve, removeFinalizer, hdel, hst, hr, hc, hp]
          | none => simp [reconcile, reserve, removeFinalizer, hdel, hst, hr, hc, hp]
        · simp [reconcile, reserve, removeFinalizer, hdel, hst, hr, hc]
    refine ⟨htr, ?_, ?_, ?_⟩
    · rw [htr]; split <;> simp
    · intro ips; rw [htr]; split <;> simp
    · intro ns ip; rw [htr]; split <;> simp
  · intro hdel hst
    simp [reconcile, hdel, hst]
  · intro hdel hev
    have htr : (reconcile env pod).1 = [Op.storeDeCouple] := by
      rcases hev with h | h <;> cases hd : env.decoupleResult <;>
        simp [reconcile, decouple, hdel, h, hd]
    refine ⟨htr, ?_, ?_⟩
    · intro n; rw [htr]; simp
    · intro n cs; rw [htr]; simp

/-- Witness for C7: the three paths evaluated at concrete pods with every
collaborator call succeeding. -/
theorem c7_deletion_paths_witness :
    (reconcile envDefault podStatefulDeleting).1 =
      [Op.storeIPReserve, Op.podRemoveFinalizer] ∧
    reconcile envDefault podStatelessDeleting = ([], Except.ok ()) ∧
    (reconcile envDefault podEvicted).1 = [Op.storeDeCouple] := by
  refine ⟨?_, ?_, ?_⟩
  · have h :=
      ((c7_deletion_and_eviction_paths envDefault podStatefulDeleting).1
        (by decide) (by decide)).1
    rw [h]; decide
  · exact (c7_deletion_and_eviction_paths envDefault podStatelessDeleting).2.1
      (by decide) (by decide)
  · exact ((c7_deletion_and_eviction_paths envDefault podEvicted).2.2
      rfl (Or.inl rfl)).1

/-- Claim C5: `selectNetwork` returns the explicitly specified network when one
is present, with the annotation taking precedence over the label; otherwise it
branches on the declared network type — Underlay via the node-name index for
the pod's node, Overlay and GlobalBGP via their sentinel node identifiers —
returning the found network or an error when none is found; an unknown network
type is an error. In every case the result is either an explicitly determined
network or an error: there is no silent default. -/
theorem c5_select_network_cases :
    ∀ (env : ReconcileEnv) (pod : Pod),
      ((specifiedNetworkOf pod).length > 0 →
        selectNetwork env pod = Except.ok (specifiedNetworkOf pod)) ∧
      ((annGet pod AnnotationSpecifiedNetwork).length > 0 →
        selectNetwork env pod = Except.ok (annGet pod AnnotationSpecifiedNetwork)) ∧
      ((specifiedNetworkOf pod).length = 0 →
        ((networkTypeOf pod = NetworkType.underlay →
          (∀ n rest, env.listNetworksByNode pod.nodeName = Except.ok (n :: rest) →
            n.length ≠ 0 → selectNetwork env pod = Except.ok n) ∧
          (env.listNetworksByNode pod.nodeName = Except.ok [] →
            selectNetwork env pod =
              Except.error ("unable to find underlay network for node " ++ pod.nodeName)) ∧
          (∀ e, env.listNetworksByNode pod.nodeName = Except.error e →
            selectNetwork env pod =
              Except.error ("unable to get underlay network by node name indexer: " ++
                ("unable to list network by indexer node name " ++ pod.nodeName ++
                  ": " ++ e)))) ∧
        (networkTypeOf pod = NetworkType.overlay →
          (∀ n rest, env.listNetworksByNode OverlayNodeName = Except.ok (n :: rest) →
            n.length ≠ 0 → selectNetwork env pod = Except.ok n) ∧
          (env.listNetworksByNode OverlayNodeName = Except.ok [] →
            selectNetwork env pod = Except.error "unable to find overlay network")) ∧
        (networkTypeOf pod = NetworkType.globalBGP →
          (∀ n rest, env.listNetworksByNode GlobalBGPNodeName = Except.ok (n :: rest) →
            n.length ≠ 0 → selectNetwork env pod = Except.ok n) ∧
          (env.listNetworksByNode GlobalBGPNodeName = Except.ok [] →
            selectNetwork env pod = Except.error "unable to find global bgp network")) ∧
        (∀ s, networkTypeOf pod = NetworkType.unknown s →
          selectNetwork env pod =
            Except.error ("unknown network type " ++ s ++ " from pod")))) := by
  intro env pod
  refine ⟨?_, ?_, ?_⟩
  · intro h
    simp [selectNetwork, h]
  · intro h
    have hs : specifiedNetworkOf pod = annGet pod AnnotationSpecifiedNetwork := by
      simp [specifiedNetworkOf, pickFirstNonEmptyString, h]
    rw [show Except.ok (annGet pod AnnotationSpecifiedNetwork) =
        Except.ok (α := String) (specifiedNetworkOf pod) by rw [hs]]
    simp [selectNetwork, hs, h]
  · intro h0
    refine ⟨?_, ?_, ?_, ?_⟩
    · intro ht
      refine ⟨?_, ?_, ?_⟩
      · intro n rest hl hn
        simp [selectNetwork, getNetworkByNodeNameIndexer, h0, ht, hl, hn]
      · intro hl
        simp [selectNetwork, getNetworkByNodeNameIndexer, h0, ht, hl]
      · intro e hl
        simp [selectNetwork, getNetworkByNodeNameIndexer, h0, ht, hl]
    · intro ht
      refine ⟨?_, ?_⟩
      · intro n rest hl hn
        simp [selectNetwork, getNetworkByNodeNameIndexer, h0, ht, hl, hn]
      · intro hl
        simp [selectNetwork, getNetworkByNodeNameIndexer, h0, ht, hl]
    · intro ht
      refine ⟨?_, ?_⟩
      · intro n rest hl hn
        simp [selectNetwork, getNetworkByNodeNameIndexer, h0, ht, hl, hn]
      · intro hl
        simp [selectNetwork, getNetworkByNodeNameIndexer, h0, ht, hl]
    · intro s ht
      simp [selectNetwork, h0, ht]

/-- Witness for C5: concrete pods exercising the explicit-network precedence,
the Underlay node lookup, the Overlay sentinel lookup, the not-found error of
the GlobalBGP sentinel lookup and the unknown-type error. -/
theorem c5_select_network_witness :
    selectNetwork envNetworks podNetAnn = Except.ok "mynet" ∧
    selectNetwork envNetworks podUnderlay = Except.ok "underlay-1" ∧
    selectNetwork envNetworks podOverlay = Except.ok "overlay-1" ∧
    selectNetwork envNetworks podGlobalBGP =
      Except.error "unable to find global bgp network" ∧
    selectNetwork envNetworks podUnknownType =
      Except.error "unknown network type Foo from pod" := by
  refine ⟨?_, ?_, ?_, ?_, ?_⟩
  · exact (c5_select_network_cases envNetworks podNetAnn).1 (by decide)
  · exact (((c5_select_network_cases envNetworks podUnderlay).2.2 (by decide)).1
      (by decide)).1 "underlay-1" [] rfl (by decide)
  · exact (((c5_select_network_cases envNetworks podOverlay).2.2 (by decide)).2.1
      (by decide)).1 "overlay-1" [] rfl (by decide)
  · exact (((c5_select_network_cases envNetworks podGlobalBGP).2.2 (by decide)).2.2.1
      (by decide)).2 rfl
  · exact ((c5_select_network_cases envNetworks podUnknownType).2.2 (by decide)).2.2.2
      "Foo" (by decide)

/-! ## Poll-loop lemmas (node binding handshake) -/

/-- Prepending the current backoff to the doubling sequence started at its
double yields the doubling sequence started at it. -/
theorem backoff_cons (b n : Nat) :
    b :: (List.range n).map (fun j => b * 2 * 2 ^ j) =
      (List.range (n + 1)).map (fun j => b * 2 ^ j) := by
  rw [List.range_succ_eq_map, List.map_cons, List.map_map]
  congr 1
  · simp
  · refine List.map_congr_left ?_
    intro j hj
    simp only [Function.comp, pow_succ]
    ring

/-- One-step unfolding of the IPAM poll loop when the list call succeeds. -/
theorem ipamLoopFuel_succ_ok (lists : Nat → Except String (List IPInstance))
    (expect f i b : Nat) (l : List IPInstance) (hli : lists i = Except.ok l) :
    ipamLoopFuel lists expect (f + 1) i b =
      if l.length = expect then ⟨PollOutcome.converged l, i + 1, [b]⟩
      else if f = 0 then ⟨PollOutcome.countMismatch expect l.length, i + 1, [b]⟩
      else
        let r := ipamLoopFuel lists expect f (i + 1) (b * 2)
        ⟨r.outcome, r.listCalls, b :: r.sleeps⟩ := by
  simp only [ipamLoopFuel, hli]

/-- One-step unfolding of the CNI-style poll loop with an unrecognized family
mode: the loop lists once, then fails the family check. -/
theorem handleAddLoopFuel_invalid (lists : Nat → Except String (List IPInstance))
    (s : String) (f i b : Nat) (l : List IPInstance) (hli : lists i = Except.ok l) :
    handleAddLoopFuel lists (IPFamilyMode.unknown s) (f + 1) i b =
      ⟨PollOutcome.invalidFamily, i + 1, [b]⟩ := by
  simp only [handleAddLoopFuel, hli, expectIPNumber]

/-- The IPAM poll loop performs at most `i + fuel` list attempts. -/
theorem ipamLoopFuel_listCalls_le (lists : Nat → Except String (List IPInstance))
    (expect : Nat) :
    ∀ (fuel i b : Nat), (ipamLoopFuel lists expect fuel i b).listCalls ≤ i + fuel := by
  intro fuel
  induction fuel with
  | zero => intro i b; simp [ipamLoopFuel]
  | succ f ih =>
    intro i b
    simp only [ipamLoopFuel]
    cases hli : lists i with
    | error e => simp
    | ok l =>
      by_cases h1 : l.length = expect
      · simp [h1]
      · by_cases h2 : f = 0
        · simp [h1, h2]
        · simp only [h1, h2, if_false, ite_false]
          have h3 := ih (i + 1) (b * 2)
          simp
          omega

/-- The CNI-style poll loop performs at most `i + fuel` list attempts. -/
theorem handleAddLoopFuel_listCalls_le (lists : Nat → Except String (List IPInstance))
    (fam : IPFamilyMode) :
    ∀ (fuel i b : Nat), (handleAddLoopFuel lists fam fuel i b).listCalls ≤ i + fuel := by
  intro fuel
  induction fuel with
  | zero => intro i b; simp [handleAddLoopFuel]
  | succ f ih =>
    intro i b
    simp only [handleAddLoopFuel]
    cases hli : lists i with
    | error e => simp
    | ok l =>
      cases hf : expectIPNumber fam with
      | none => simp
      | some expect =>
        by_cases h1 : l.length = expect
        · simp [h1]
        · by_cases h2 : f = 0
          · simp [h1, h2]
          · simp only [h1, h2, if_false, ite_false]
            have h3 := ih (i + 1) (b * 2)
            simp
            omega

/-- When every attempt in range mismatches, the IPAM loop runs all its
iterations, reports the expected and last-observed counts, and sleeps the
doubling backoff sequence. -/
theorem ipamLoopFuel_exhaust (lists : Nat → Except String (List IPInstance))
    (obs : Nat → List IPInstance) (expect : Nat)
    (hl : ∀ j, lists j = Except.ok (obs j)) :
    ∀ (fuel i b : Nat), 0 < fuel →
      (∀ j, i ≤ j → j < i + fuel → (obs j).length ≠ expect) →
      ipamLoopFuel lists expect fuel i b =
        ⟨PollOutcome.countMismatch expect (obs (i + fuel - 1)).length, i + fuel,
          (List.range fuel).map (fun j => b * 2 ^ j)⟩ := by
  intro fuel
  induction fuel with
  | zero => intro i b h; exact absurd h (by omega)
  | succ f ih =>
    intro i b _ hmis
    have hne : (obs i).length ≠ expect := hmis i le_rfl (by omega)
    rw [ipamLoopFuel_succ_ok lists expect f i b (obs i) (hl i), if_neg hne]
    by_cases hf : f = 0
    · subst hf
      rw [if_pos rfl]
      simp [List.range_succ]
    · rw [if_neg hf]
      have h0 : 0 < f := Nat.pos_of_ne_zero hf
      rw [ih (i + 1) (b * 2) h0 (fun j hj1 hj2 => hmis j (by omega) (by omega))]
      dsimp only
      have hidx : i + 1 + f - 1 = i + (f + 1) - 1 := by omega
      have hcnt : i + 1 + f = i + (f + 1) := by omega
      rw [hidx, hcnt, backoff_cons]

/-- As soon as an attempt's observed count matches the expected count, the
IPAM loop stops with the converged list, having listed `k + 1 - i` times. -/
theorem ipamLoopFuel_converge (lists : Nat → Except String (List IPInstance))
    (obs : Nat → List IPInstance) (expect : Nat)
    (hl : ∀ j, lists j = Except.ok (obs j)) :
    ∀ (fuel i b k : Nat), i ≤ k → k < i + fuel →
      (∀ j, i ≤ j → j < k → (obs j).length ≠ expect) →
      (obs k).length = expect →
      ipamLoopFuel lists expect fuel i b =
        ⟨PollOutcome.converged (obs k), k + 1,
          (List.range (k - i + 1)).map (fun j => b * 2 ^ j)⟩ := by
  intro fuel
  induction fuel with
  | zero => intro i b k h1 h2; exact absurd h2 (by omega)
  | succ f ih =>
    intro i b k hik hk hmis hmatch
    rcases Nat.eq_or_lt_of_le hik with hki | hlt
    · subst hki
      rw [ipamLoopFuel_succ_ok lists expect f i b (obs i) (hl i), if_pos hmatch]
      simp [List.range_succ]
    · have hne : (obs i).length ≠ expect := hmis i le_rfl hlt
      have hf : f ≠ 0 := by omega
      rw [ipamLoopFuel_succ_ok lists expect f i b (obs i) (hl i), if_neg hne, if_neg hf]
      rw [ih (i + 1) (b * 2) k hlt (by omega)
        (fun j hj1 hj2 => hmis j (by omega) hj2) hmatch]
      dsimp only
      have hn : k - (i + 1) + 1 = k - i := by omega
      rw [hn, backoff_cons]

/-- The CNI-style poll loop coincides with the IPAM one whenever the family
mode is recognized (the per-iteration family check then never fires). -/
theorem handleAddLoopFuel_eq_ipamLoopFuel (lists : Nat → Except String (List IPInstance))
    (fam : IPFamilyMode) (expect : Nat) (hfam : expectIPNumber fam = some expect) :
    ∀ (fuel i b : Nat),
      handleAddLoopFuel lists fam fuel i b = ipamLoopFuel lists expect fuel i b := by
  intro fuel
  induction fuel with
  | zero => intro i b; rfl
  | succ f ih =>
    intro i b
    simp only [handleAddLoopFuel, ipamLoopFuel, hfam]
    cases hli : lists i with
    | error e => simp
    | ok l =>
      by_cases h1 : l.length = expect
      · simp [h1]
      · by_cases h2 : f = 0
        · simp [h1, h2]
        · simp [h1, h2, ih (i + 1) (b * 2)]

/-! ## Claim theorems: node binding handshake -/

/-- Claim C4 (amended): in both add forms, the expected address count is 1 for
the IPv4-only or IPv6-only family mode and 2 for dual-stack. In the IPAM-only
form an unrecognized family mode fails before any polling (zero list
attempts); in the CNI-style form the family check runs inside the poll loop,
so an unrecognized mode fails on the first iteration, after one list attempt
and one backoff sleep. Both poll loops perform at most `pollRetries = 11` list
attempts with exponential backoff doubling from 5µs, stop and proceed as soon
as the observed instance count equals the expected count, and after exhausting
all attempts fail with an error reporting both the expected and the observed
counts. -/
theorem c4_poll_until_converged :
    ∀ (lists : Nat → Except String (List IPInstance)) (obs : Nat → List IPInstance)
      (fam : IPFamilyMode) (expect k : Nat),
      (expectIPNumber IPFamilyMode.ipv4 = some 1 ∧
        expectIPNumber IPFamilyMode.ipv6 = some 1 ∧
        expectIPNumber IPFamilyMode.dualStack = some 2 ∧
        (∀ s, expectIPNumber (IPFamilyMode.unknown s) = none)) ∧
      (∀ s, handleIPAMAddPoll lists (IPFamilyMode.unknown s) =
        ⟨PollOutcome.invalidFamily, 0, []⟩) ∧
      (∀ s l, lists 0 = Except.ok l →
        handleAddPoll lists (IPFamilyMode.unknown s) =
          ⟨PollOutcome.invalidFamily, 1, [pollBackOffBase]⟩) ∧
      ((handleAddPoll lists fam).listCalls ≤ pollRetries ∧
        (handleIPAMAddPoll lists fam).listCalls ≤ pollRetries) ∧
      (expectIPNumber fam = some expect →
        (∀ j, lists j = Except.ok (obs j)) →
        ((k < pollRetries →
          (∀ j, j < k → (obs j).length ≠ expect) →
          (obs k).length = expect →
          handleAddPoll lists fam =
            ⟨PollOutcome.converged (obs k), k + 1,
              (List.range (k + 1)).map (fun j => pollBackOffBase * 2 ^ j)⟩ ∧
          handleIPAMAddPoll lists fam =
            ⟨PollOutcome.converged (obs k), k + 1,
              (List.range (k + 1)).map (fun j => pollBackOffBase * 2 ^ j)⟩) ∧
        ((∀ j, j < pollRetries → (obs j).length ≠ expect) →
          handleAddPoll lists fam =
            ⟨PollOutcome.countMismatch expect (obs (pollRetries - 1)).length, pollRetries,
              (List.range pollRetries).map (fun j => pollBackOffBase * 2 ^ j)⟩ ∧
          handleIPAMAddPoll lists fam =
            ⟨PollOutcome.countMismatch expect (obs (pollRetries - 1)).length, pollRetries,
              (List.range pollRetries).map (fun j => pollBackOffBase * 2 ^ j)⟩))) := by
  intro lists obs fam expect k
  refine ⟨⟨rfl, rfl, rfl, fun s => rfl⟩, ?_, ?_, ⟨?_, ?_⟩, ?_⟩
  · intro s
    rfl
  · intro s l hl0
    have h := handleAddLoopFuel_invalid lists s 10 0 pollBackOffBase l hl0
    simpa [handleAddPoll, pollRetries] using h
  · have h := handleAddLoopFuel_listCalls_le lists fam pollRetries 0 pollBackOffBase
    simpa [handleAddPoll] using h
  · cases hf : expectIPNumber fam with
    | none => simp [handleIPAMAddPoll, hf, pollRetries]
    | some e =>
      have h := ipamLoopFuel_listCalls_le lists e pollRetries 0 pollBackOffBase
      simp only [handleIPAMAddPoll, hf]
      simpa using h
  · intro hfam hl
    constructor
    · intro hk hmis hmatch
      have hcv := ipamLoopFuel_converge lists obs expect hl pollRetries 0 pollBackOffBase k
        (Nat.zero_le k) (by omega) (fun j hj1 hj2 => hmis j hj2) hmatch
      constructor
      · rw [handleAddPoll,
          handleAddLoopFuel_eq_ipamLoopFuel lists fam expect hfam pollRetries 0
            pollBackOffBase, hcv]
        simp
      · simp only [handleIPAMAddPoll, hfam]
        rw [hcv]
        simp
    · intro hmis
      have hex := ipamLoopFuel_exhaust lists obs expect hl pollRetries 0 pollBackOffBase
        (by norm_num [pollRetries]) (fun j hj1 hj2 => hmis j (by omega))
      constructor
      · rw [handleAddPoll,
          handleAddLoopFuel_eq_ipamLoopFuel lists fam expect hfam pollRetries 0
            pollBackOffBase, hex]
        simp
      · simp only [handleIPAMAddPoll, hfam]
        rw [hex]
        simp

/-- Counterexample to C4 as stated: in the CNI-style form an unrecognized
family mode does not fail before any polling — the handler performs one list
attempt (and one backoff sleep) before the invalid-family failure, because the
family check sits inside the poll loop. -/
theorem c4_counterexample_cni_lists_before_family_check :
    handleAddPoll (fun _ => Except.ok []) (IPFamilyMode.unknown "bad") =
      ⟨PollOutcome.invalidFamily, 1, [5]⟩ ∧
    (handleAddPoll (fun _ => Except.ok []) (IPFamilyMode.unknown "bad")).listCalls ≠ 0 := by
  constructor
  · decide
  · decide

/-- Witness for C4: a run converging at the fourth attempt with its doubling
sleeps, and an exhausted dual-stack run reporting expected 2, observed 0. -/
theorem c4_poll_witness :
    handleAddPoll c4Lists IPFamilyMode.ipv4 =
      ⟨PollOutcome.converged [instSampleV4], 4, [5, 10, 20, 40]⟩ ∧
    handleIPAMAddPoll (fun _ => Except.ok []) IPFamilyMode.dualStack =
      ⟨PollOutcome.countMismatch 2 0, 11,
        [5, 10, 20, 40, 80, 160, 320, 640, 1280, 2560, 5120]⟩ := by
  constructor
  · have h := (((c4_poll_until_converged c4Lists c4Obs IPFamilyMode.ipv4 1 3).2.2.2.2)
      rfl (fun j => by by_cases hj : j < 3 <;> simp [c4Lists, c4Obs, hj])).1
      (by decide) (fun j hj => by simp [c4Obs, hj]) (by decide)
    rw [h.1]
    decide
  · have h := (((c4_poll_until_converged (fun _ => Except.ok [])
      (fun _ => ([] : List IPInstance)) IPFamilyMode.dualStack 2 0).2.2.2.2)
      rfl (fun j => rfl)).2 (fun j hj => by decide)
    rw [h.2]
    decide

/-- Structural invariant of the instance-processing loop of `handleAdd`: on
success, a non-empty incoming common MAC / network is preserved; every
processed instance's MAC and network agree with the final common values (or
are empty — an empty value adopts or defers rather than mismatching); every
version is IPv4 or IPv6; and at most one address per IP version is accepted,
counting a version slot already taken in the incoming state. -/
theorem processInstances_ok_inv (env : HandleEnv) :
    ∀ (l : List IPInstance) (st st' : ProcState),
      processInstances env l st = Except.ok st' →
      (st.macAddr ≠ "" → st'.macAddr = st.macAddr) ∧
      (st.networkName ≠ "" → st'.networkName = st.networkName) ∧
      (∀ inst ∈ l,
        (inst.spec.address.mac = st'.macAddr ∨ inst.spec.address.mac = "") ∧
        (inst.spec.network = st'.networkName ∨ inst.spec.network = "") ∧
        (inst.spec.address.version = IPVersion.v4 ∨
          inst.spec.address.version = IPVersion.v6)) ∧
      l.countP (fun inst => decide (inst.spec.address.version = IPVersion.v4)) +
        st.hasV4.toNat ≤ 1 ∧
      l.countP (fun inst => decide (inst.spec.address.version = IPVersion.v6)) +
        st.hasV6.toNat ≤ 1 := by
  intro l
  induction l with
  | nil =>
    intro st st' h
    simp only [processInstances, Except.ok.injEq] at h
    subst h
    refine ⟨fun _ => rfl, fun _ => rfl, by simp, ?_, ?_⟩ <;> simp [Bool.toNat_le]
  | cons inst rest ih =>
    intro st st' h
    simp only [processInstances] at h
    by_cases hmac : st.macAddr ≠ "" ∧ st.macAddr ≠ inst.spec.address.mac
    · rw [if_pos hmac] at h; exact absurd h (by simp)
    · rw [if_neg hmac] at h
      by_cases hcidr : env.parseCIDROK inst.spec.address.ip
      · rw [if_neg (by simpa using hcidr)] at h
        cases hv : inst.spec.address.version with
        | v4 =>
          simp only [hv] at h
          by_cases h4 : st.hasV4
          · rw [if_pos h4] at h; exact absurd h (by simp)
          · rw [if_neg h4] at h
            by_cases hnet : st.networkName ≠ "" ∧ st.networkName ≠ inst.spec.network
            · rw [if_pos hnet] at h; exact absurd h (by simp)
            · rw [if_neg hnet] at h
              obtain ⟨ihm, ihn, ihall, ih4, ih6⟩ := ih _ _ h
              simp only at ihm ihn ih4 ih6
              refine ⟨?_, ?_, ?_, ?_, ?_⟩
              · intro hm
                rw [ihm (by simp [hm])]
                simp [hm]
              · intro hn
                rw [ihn (by simp [hn])]
                simp [hn]
              · intro i hi
                rcases List.mem_cons.mp hi with hhd | htl
                · rw [hhd]
                  refine ⟨?_, ?_, Or.inl hv⟩
                  · by_cases hie : inst.spec.address.mac = ""
                    · exact Or.inr hie
                    · left
                      by_cases hse : st.macAddr = ""
                      · rw [ihm (by simp [hse, hie])]
                        simp [hse]
                      · have heq : st.macAddr = inst.spec.address.mac := by
                          by_contra hne
                          exact hmac ⟨hse, hne⟩
                        rw [ihm (by simp [hse])]
                        simp [hse, heq]
                  · by_cases hie : inst.spec.network = ""
                    · exact Or.inr hie
                    · left
                      by_cases hse : st.networkName = ""
                      · rw [ihn (by simp [hse, hie])]
                        simp [hse]
                      · have heq : st.networkName = inst.spec.network := by
                          by_contra hne
                          exact hnet ⟨hse, hne⟩
                        rw [ihn (by simp [hse])]
                        simp [hse, heq]
                · exact ihall i htl
              · have hb4 : st.hasV4 = false := by simpa using h4
                rw [List.countP_cons]
                simp [hv, hb4, Bool.toNat_true, Bool.toNat_false] at ih4 ⊢ <;> first | assumption | omega
              · rw [List.countP_cons]
                cases hb6 : st.hasV6 <;> simp [hv, hb6, Bool.toNat_true, Bool.toNat_false] at ih6 ⊢ <;>
                  first | assumption | omega
        | v6 =>
          simp only [hv] at h
          by_cases h6 : st.hasV6
          · rw [if_pos h6] at h; exact absurd h (by simp)
          · rw [if_neg h6] at h
            by_cases hnet : st.networkName ≠ "" ∧ st.networkName ≠ inst.spec.network
            · rw [if_pos hnet] at h; exact absurd h (by simp)
            · rw [if_neg hnet] at h
              obtain ⟨ihm, ihn, ihall, ih4, ih6⟩ := ih _ _ h
              simp only at ihm ihn ih4 ih6
              refine ⟨?_, ?_, ?_, ?_, ?_⟩
              · intro hm
                rw [ihm (by simp [hm])]
                simp [hm]
              · intro hn
                rw [ihn (by simp [hn])]
                simp [hn]
              · intro i hi
                rcases List.mem_cons.mp hi with hhd | htl
                · rw [hhd]
                  refine ⟨?_, ?_, Or.inr hv⟩
                  · by_cases hie : inst.spec.address.mac = ""
                    · exact Or.inr hie
                    · left
                      by_cases hse : st.macAddr = ""
                      · rw [ihm (by simp [hse, hie])]
                        simp [hse]
                      · have heq : st.macAddr = inst.spec.address.mac := by
                          by_contra hne
                          exact hmac ⟨hse, hne⟩
                        rw [ihm (by simp [hse])]
                        simp [hse, heq]
                  · by_cases hie : inst.spec.network = ""
                    · exact Or.inr hie
                    · left
                      by_cases hse : st.networkName = ""
                      · rw [ihn (by simp [hse, hie])]
                        simp [hse]
                      · have heq : st.networkName = inst.spec.network := by
                          by_contra hne
                          exact hnet ⟨hse, hne⟩
                        rw [ihn (by simp [hse])]
                        simp [hse, heq]
                · exact ihall i htl
              · rw [List.countP_cons]
                cases hb4 : st.hasV4 <;> simp [hv, hb4, Bool.toNat_true, Bool.toNat_false] at ih4 ⊢ <;> first | assumption | omega
              · have hb6 : st.hasV6 = false := by simpa using h6
                rw [List.countP_cons]
                simp [hv, hb6, Bool.toNat_true, Bool.toNat_false] at ih6 ⊢ <;> first | assumption | omega
        | other s =>
          simp only [hv] at h
          exact absurd h (by simp)
      · rw [if_pos (by simpa using hcidr)] at h; exact absurd h (by simp)

/-- Claim C6 (amended): in the CNI-style add path, after the poll loop
converges the handler validates the observed instances — every instance's MAC
equals the common MAC (or is empty), every network equals the common network
(or is empty), at most one address exists per IP version — and any mismatch
aborts with a 500 internal error before `configureNic` and before any status
write-back, without merging or picking among inconsistent values. The IPAM-only
path performs no such validation. -/
theorem c6_cni_validation :
    ∀ (env : HandleEnv) (lists : Nat → Except String (List IPInstance))
      (fam : IPFamilyMode) (l : List IPInstance) (st' : ProcState) (e : String),
      ((handleAddPoll lists fam).outcome = PollOutcome.converged l →
        processInstances env l {} = Except.ok st' →
        (∀ inst ∈ l,
          (inst.spec.address.mac = st'.macAddr ∨ inst.spec.address.mac = "") ∧
          (inst.spec.network = st'.networkName ∨ inst.spec.network = "")) ∧
        l.countP (fun inst => decide (inst.spec.address.version = IPVersion.v4)) ≤ 1 ∧
        l.countP (fun inst => decide (inst.spec.address.version = IPVersion.v6)) ≤ 1) ∧
      ((handleAddPoll lists fam).outcome = PollOutcome.converged l →
        processInstances env l {} = Except.error e →
        HEffect.configureNic ∉ handleAdd env lists fam ∧
        (∀ n, HEffect.statusPatch n ∉ handleAdd env lists fam) ∧
        HEffect.respondError 500 ∈ handleAdd env lists fam) := by
  intro env lists fam l st' e
  constructor
  · intro hpoll hok
    obtain ⟨_, _, hall, h4, h6⟩ := processInstances_ok_inv env l {} st' hok
    refine ⟨fun inst hm => ⟨(hall inst hm).1, (hall inst hm).2.1⟩, ?_, ?_⟩
    · simpa using h4
    · simpa using h6
  · intro hpoll herr
    have htr : handleAdd env lists fam =
        (if env.patchCalicoPodIPsAnnotation then
          match env.calicoPatchResult with
          | some _ => [HEffect.calicoPatch, HEffect.respondError 400]
          | none => [HEffect.calicoPatch]
        else []) ++ [HEffect.respondError 500] := by
      simp only [handleAdd, hpoll, herr]
    rw [htr]
    refine ⟨?_, ?_, ?_⟩
    · by_cases hp : env.patchCalicoPodIPsAnnotation
      · cases hc : env.calicoPatchResult <;> simp [hp, hc]
      · simp [hp]
    · intro n
      by_cases hp : env.patchCalicoPodIPsAnnotation
      · cases hc : env.calicoPatchResult <;> simp [hp, hc]
      · simp [hp]
    · simp

/-- Counterexample to C6 as stated: the IPAM-only add path performs no
consistency validation — two instances of one pod disagreeing on MAC and on
network, and both being IPv4, are accepted, written back and returned in a
success response, with no internal-inconsistency error. -/
theorem c6_counterexample_ipam_no_validation :
    handleIPAMAdd envHandleDefault c6Lists IPFamilyMode.dualStack =
      [HEffect.statusPatch "inst-a", HEffect.statusPatch "inst-b",
        HEffect.respondOK
          [⟨"10.0.0.1/24", "aa:aa:aa:aa:aa:01", "10.0.0.254", IPVersion.v4⟩,
            ⟨"10.0.0.2/24", "bb:bb:bb:bb:bb:02", "10.0.0.254", IPVersion.v4⟩]] ∧
    c6InstA.spec.address.mac ≠ c6InstB.spec.address.mac ∧
    c6InstA.spec.network ≠ c6InstB.spec.network ∧
    c6InstA.spec.address.version = c6InstB.spec.address.version := by
  refine ⟨by decide, by decide, by decide, by decide⟩

/-- Witness for C6: the validation consequences at a consistent single-instance
list, and the pre-configuration abort at the inconsistent pair of `c6Lists`. -/
theorem c6_cni_validation_witness :
    [instSampleV4].countP
      (fun inst => decide (inst.spec.address.version = IPVersion.v4)) ≤ 1 ∧
    HEffect.configureNic ∉ handleAdd envHandleDefault c6Lists IPFamilyMode.dualStack ∧
    HEffect.respondError 500 ∈ handleAdd envHandleDefault c6Lists IPFamilyMode.dualStack := by
  have h1 := (c6_cni_validation envHandleDefault c8Lists IPFamilyMode.ipv4
    [instSampleV4]
    { macAddr := "aa:aa:aa:aa:aa:04", hasV4 := true, networkName := "net1",
      returnIPAddress :=
        [⟨"10.0.0.4/24", "aa:aa:aa:aa:aa:04", "10.0.0.254", IPVersion.v4⟩],
      affected := ["inst-c4"] } "unused").1 (by decide) (by rfl)
  have h2 := (c6_cni_validation envHandleDefault c6Lists IPFamilyMode.dualStack
    [c6InstA, c6InstB] {} "mac for all ip instances of pod should be the same").2
    (by decide) (by rfl)
  exact ⟨h1.2.1, h2.1, h2.2.2⟩

/-- Claim C8 (code bug): when the calico-annotation patching option is enabled
and the patch fails, the handler does continue through interface configuration
and status write-back — but because `errorWrapper` is invoked without a
`return`, a 400 error response is written to the client before it does, so the
client-visible response is an error, not the plain success the spec's
deliberate best-effort swallowing describes. This theorem evaluates the add
path at such a failing input. -/
theorem c8_calico_patch_failure_writes_error_response :
    handleAdd c8Env c8Lists IPFamilyMode.ipv4 =
      [HEffect.calicoPatch, HEffect.respondError 400, HEffect.configureNic,
        HEffect.statusPatch "inst-c4",
        HEffect.respondOK
          [⟨"10.0.0.4/24", "aa:aa:aa:aa:aa:04", "10.0.0.254", IPVersion.v4⟩]] := by
  decide

/-- Claim C9: every IPInstance returned by
`listAvailableIPInstanceOfPodByInterfaceName` has a zero deletion timestamp —
instances being deleted are filtered out, whether or not the legacy-mode
fallback fired, so they are never counted, returned or written back by the add
paths consuming this list. -/
theorem c9_no_deleted_instance_listed :
    ∀ (env : ClientEnv) (podUID podNamespace interfaceName : String)
      (insts : List IPInstance) (inst : IPInstance),
      listAvailableIPInstanceOfPodByInterfaceName env podUID podNamespace interfaceName =
        Except.ok insts →
      inst ∈ insts → inst.deletionTimestamp = none := by
  intro env uid ns iface insts inst h hmem
  simp only [listAvailableIPInstanceOfPodByInterfaceName] at h
  cases hl : env.listIPInstances ⟨ns, env.nodeName, uid, iface⟩ with
  | error e => rw [hl] at h; simp at h
  | ok items =>
    rw [hl] at h
    simp only [ite_self, Except.ok.injEq] at h
    subst h
    have hf := (List.mem_filter.mp hmem).2
    simpa [Option.isNone_iff_eq_none] using hf

/-- Witness for C9: a store holding one live and one deleted instance; the
returned list contains exactly the live one, whose timestamp is zero. -/
theorem c9_no_deleted_instance_witness :
    c9Live.deletionTimestamp = none :=
  c9_no_deleted_instance_listed c9ClientEnv "uid-9" "ns1" "eth0" [c9Live] c9Live
    (by rfl) (by simp)

/-- Claim C10: the legacy-mode fallback of
`listAvailableIPInstanceOfPodByInterfaceName` re-issues the identical query
(same namespace, same node / pod-UID / interface-name labels), so the function
is extensionally equal to the variant with the fallback branch removed. -/
theorem c10_legacy_fallback_equivalent :
    ∀ (env : ClientEnv) (podUID podNamespace interfaceName : String),
      listAvailableIPInstanceOfPodByInterfaceName env podUID podNamespace interfaceName =
        listAvailableNoLegacyFallback env podUID podNamespace interfaceName := by
  intro env uid ns iface
  simp only [listAvailableIPInstanceOfPodByInterfaceName, listAvailableNoLegacyFallback]
  cases hl : env.listIPInstances ⟨ns, env.nodeName, uid, iface⟩ with
  | error e => rfl
  | ok items => simp

end Hybridnet
